import Mathlib

/-!
# Verification of the firmware transfer controller of `http_simple_ota.ino`

Shallow embedding of the update transfer core of `performHttpUpdate`
(source lines 114-168 of `src/http_simple_ota.ino`): the code that runs
after the HTTP GET has returned `HTTP_CODE_OK`.  The external
collaborators the controller consumes (the network stream and the staging
partition, i.e. the ESP32 `Update` object) are modelled as an oracle
environment: the stream is a family of poll responses indexed by the poll
number, and the partition's `begin`/`write`/`end`/`isFinished` responses
are components of the same environment.  The copy loop (source lines
132-149) becomes a fuel-indexed structural recursion; running out of fuel
returns `none` and stands for a run that has not yet terminated, so a
`some` result is a genuinely terminated run.

Side effects the claims talk about are recorded in the run result:
the number of `Update.abort()` calls, whether `ESP.restart()` was reached,
whether `Update.end()` (finalize) was invoked, the size argument passed to
`Update.begin`, and the number of `Update.write` calls.
-/

/-- Copy-buffer size: `uint8_t buffer[2048]` (source line 129). -/
def BUF : Nat := 2048

/-- Oracle environment of one transfer session.  The stream fields are
indexed by the poll number `i` (the loop consumes one index per
iteration, both for idle re-polls and for read iterations); the partition
fields are the responses of the ESP32 `Update` collaborator.

* `contentLength` — what `http.getSize()` returned (source line 114);
  `-1` when the server declared no length.
* `beginOk` — result of `Update.begin(...)` (line 123).
* `avail i` — `stream->available()` at poll `i` (line 133).
* `conn i` — `stream->connected()` at poll `i` (line 135).
* `readb i req` — the `int` returned by `stream->readBytes(buffer, req)`
  at poll `i` when the loop asks for `req` bytes (line 140).
* `write i len` — the `size_t` returned by `Update.write(buffer, len)`
  at poll `i` (line 142).
* `endOk` — result of `Update.end()` (line 151).
* `isFinished` — result of `Update.isFinished()` (line 157). -/
structure Env where
  contentLength : Int
  beginOk : Bool
  avail : Nat → Nat
  conn : Nat → Bool
  readb : Nat → Nat → Int
  write : Nat → Nat → Nat
  endOk : Bool
  isFinished : Bool

/-- How the copy loop (source lines 132-149) exited, carrying the final
`totalWritten` counter and the number of `Update.write` calls made.

* `closed` — exit through `break` at line 135 (no bytes available and the
  stream disconnected) or at line 141 (`bytesRead <= 0`): control falls
  through to the finalize step.
* `writeErr` — `Update.write` acknowledged fewer bytes than requested
  (line 142): the controller aborts and returns. -/
inductive LoopRes where
  | closed (total writes : Nat)
  | writeErr (total writes : Nat)
deriving DecidableEq, Repr

/-- The `totalWritten` counter at loop exit. -/
def LoopRes.total : LoopRes → Nat
  | .closed t _ => t
  | .writeErr t _ => t

/-- The number of `Update.write` calls made by the loop. -/
def LoopRes.writes : LoopRes → Nat
  | .closed _ w => w
  | .writeErr _ w => w

/-- The copy loop of source lines 132-149.  Arguments: remaining fuel,
current poll index `i`, current `totalWritten`, number of `Update.write`
calls so far.  Each iteration:

* `available = stream->available()`; if zero and disconnected, `break`
  (exit `closed`); if zero but connected, `delay(10)` and re-poll (the
  delay has no observable effect in the embedding beyond consuming a poll
  index);
* otherwise clamp `available` to the 2048-byte buffer, read, `break` on a
  non-positive read (exit `closed`), and write: a short acknowledgement
  exits `writeErr`, a full one adds `bytesRead` to `totalWritten` and
  loops. -/
def copyLoop (env : Env) : Nat → Nat → Nat → Nat → Option LoopRes
  | 0, _, _, _ => none
  | fuel + 1, i, total, writes =>
    let a := env.avail i
    if a = 0 then
      if env.conn i then copyLoop env fuel (i + 1) total writes
      else some (.closed total writes)
    else
      let r := env.readb i (min a BUF)
      if r ≤ 0 then some (.closed total writes)
      else
        if env.write i r.toNat ≠ r.toNat then some (.writeErr total (writes + 1))
        else copyLoop env fuel (i + 1) (total + r.toNat) (writes + 1)

/-- The failure taxonomy of the spec (section 7), one reason per `return
false` site of the transfer core: `Update.begin` failed (line 124), a
short `Update.write` acknowledgement (line 142), `Update.end()` failed
(line 151), `Update.isFinished()` false (line 157). -/
inductive Reason where
  | stagingBeginFailed
  | writeError
  | finalizeFailed
  | incompleteTransfer
deriving DecidableEq, Repr

/-- Terminal outcome of a run: `Succeeded(bytesWritten)` or
`Failed(reason)`. -/
inductive Outcome where
  | succeeded (bytesWritten : Nat)
  | failed (r : Reason)
deriving DecidableEq, Repr

/-- Observable result of one terminated run of the transfer core.

* `outcome` — the terminal outcome;
* `abortCount` — how many times `Update.abort()` was called;
* `restarted` — whether `ESP.restart()` (source line 166) was reached;
* `finalized` — whether `Update.end()` (line 151) was invoked;
* `beginMode` — the size passed to `Update.begin` (line 123):
  `some n` for a positive declared length `n`, `none` for
  `UPDATE_SIZE_UNKNOWN`;
* `writes` — how many `Update.write` calls the session made. -/
structure RunResult where
  outcome : Outcome
  abortCount : Nat
  restarted : Bool
  finalized : Bool
  beginMode : Option Nat
  writes : Nat
deriving DecidableEq, Repr

/-- The transfer core of `performHttpUpdate`, source lines 114-168,
entered after the HTTP GET returned 200.  Faithful translation:

* line 123: `Update.begin(contentLength > 0 ? (size_t)contentLength :
  UPDATE_SIZE_UNKNOWN)`; a `false` result returns immediately
  (`Failed(stagingBeginFailed)`, no abort, no restart, no finalize);
* lines 129-149: the copy loop; a short write acknowledgement calls
  `Update.abort()` once and returns (`Failed(writeError)`);
* line 151: `Update.end()`; failure returns (`Failed(finalizeFailed)`),
  with no `Update.abort()` call in the source;
* line 157: `Update.isFinished()`; `false` returns
  (`Failed(incompleteTransfer)`), again with no `Update.abort()` call;
* lines 163-167: success logs `totalWritten`, calls `ESP.restart()` and
  then `return true` (unreachable after the restart).

`none` means the copy loop did not terminate within `fuel` iterations. -/
def performHttpUpdate (env : Env) (fuel : Nat) : Option RunResult :=
  let sizeArg : Option Nat :=
    if 0 < env.contentLength then some env.contentLength.toNat else none
  if !env.beginOk then
    some ⟨.failed .stagingBeginFailed, 0, false, false, sizeArg, 0⟩
  else
    match copyLoop env fuel 0 0 0 with
    | none => none
    | some (.writeErr _ w) =>
      some ⟨.failed .writeError, 1, false, false, sizeArg, w⟩
    | some (.closed total w) =>
      if !env.endOk then
        some ⟨.failed .finalizeFailed, 0, false, true, sizeArg, w⟩
      else if !env.isFinished then
        some ⟨.failed .incompleteTransfer, 0, false, true, sizeArg, w⟩
      else
        some ⟨.succeeded total, 0, true, true, sizeArg, w⟩

/-- Spec-side definition for the refinement claim about byte accounting
(spec section 8: "bytesWritten in a Succeeded outcome equals the total
bytes the stream actually produced across the session"): the total number
of bytes the stream delivers to the controller, walking the same poll
sequence but only summing the delivered read counts, independent of the
staging partition's write acknowledgements. -/
def streamProduced (env : Env) : Nat → Nat → Option Nat
  | 0, _ => none
  | fuel + 1, i =>
    let a := env.avail i
    if a = 0 then
      if env.conn i then streamProduced env fuel (i + 1) else some 0
    else
      let r := env.readb i (min a BUF)
      if r ≤ 0 then some 0
      else (streamProduced env fuel (i + 1)).map (fun s => s + r.toNat)

/-- The size argument passed to `Update.begin` (source line 123):
`contentLength > 0 ? (size_t)contentLength : UPDATE_SIZE_UNKNOWN`,
with `UPDATE_SIZE_UNKNOWN` modelled as `none`. -/
def sizeArgOf (env : Env) : Option Nat :=
  if 0 < env.contentLength then some env.contentLength.toNat else none

/-! ## Concrete environments used by witnesses and counterexamples -/

/-- A stream that is already disconnected with nothing available, against
a partition whose finalize fails: the run ends `Failed(finalizeFailed)`. -/
def envFinalizeFail : Env :=
  ⟨-1, true, fun _ => 0, fun _ => false, fun _ _ => 0, fun _ n => n,
    false, false⟩

/-- An empty stream against a partition whose finalize and completion
checks both pass: the run ends `Succeeded(0)` (and restarts). -/
def envEmptySuccess : Env :=
  ⟨-1, true, fun _ => 0, fun _ => false, fun _ _ => 0, fun _ n => n,
    true, true⟩

/-- A stream offering one 100-byte chunk then closing, fully
acknowledged: the run ends `Succeeded(100)`. -/
def envOneChunk : Env :=
  ⟨100, true, fun i => if i = 0 then 100 else 0,
    fun i => decide (i = 0), fun _ req => (req : Int), fun _ n => n,
    true, true⟩

/-- A stream offering one 100-byte chunk whose write is acknowledged
short (fewer bytes than requested): the run ends `Failed(writeError)`. -/
def envShortWrite : Env :=
  ⟨100, true, fun i => if i = 0 then 100 else 0,
    fun i => decide (i = 0), fun _ req => (req : Int), fun _ n => n - 1,
    true, true⟩

/-- An empty, already-closed stream against a partition that reports
"not complete" for the empty image (finalize nominally succeeds): the run
ends `Failed(incompleteTransfer)`. -/
def envEmptyIncomplete : Env :=
  ⟨-1, true, fun _ => 0, fun _ => false, fun _ _ => 0, fun _ n => n,
    true, false⟩

/-- A connected stream that claims 10 bytes available but whose read
returns 0 (the `bytesRead <= 0` break of source line 141). -/
def envReadEof : Env :=
  ⟨-1, true, fun i => if i = 0 then 10 else 0,
    fun _ => true, fun _ _ => 0, fun _ n => n, true, true⟩

/-- The result of running `envFinalizeFail`. -/
def resFinalizeFail : RunResult := ⟨.failed .finalizeFailed, 0, false, true, none, 0⟩

/-- The result of running `envOneChunk`. -/
def resSuccess100 : RunResult := ⟨.succeeded 100, 0, true, true, some 100, 1⟩

/-- The result of running `envShortWrite`. -/
def resShortWrite : RunResult := ⟨.failed .writeError, 1, false, false, some 100, 1⟩

/-- The result of running `envEmptyIncomplete`. -/
def resEmptyIncomplete : RunResult := ⟨.failed .incompleteTransfer, 0, false, true, none, 0⟩

/-- A second presentation of `envOneChunk` with an extensionally equal but
syntactically different read response, for the determinism claim. -/
def envOneChunkAlt : Env :=
  ⟨100, true, fun i => if i = 0 then 100 else 0,
    fun i => decide (i = 0), fun _ req => (req : Int) + 0, fun _ n => n,
    true, true⟩

example : performHttpUpdate envFinalizeFail 1 =
    some ⟨.failed .finalizeFailed, 0, false, true, none, 0⟩ := by decide

example : performHttpUpdate envEmptySuccess 1 =
    some ⟨.succeeded 0, 0, true, true, none, 0⟩ := by decide

example : performHttpUpdate envOneChunk 2 =
    some ⟨.succeeded 100, 0, true, true, some 100, 1⟩ := by decide

example : performHttpUpdate envShortWrite 2 =
    some ⟨.failed .writeError, 1, false, false, some 100, 1⟩ := by decide

example : performHttpUpdate envEmptyIncomplete 1 =
    some ⟨.failed .incompleteTransfer, 0, false, true, none, 0⟩ := by decide

example : performHttpUpdate envReadEof 1 =
    some ⟨.succeeded 0, 0, true, true, none, 0⟩ := by decide

/-! ## Helper lemmas about the copy loop -/

/-- A terminated loop stays terminated, with the same exit, when given
more fuel. -/
theorem copyLoop_fuel_mono (env : Env) :
    ∀ f f' i t w r, f ≤ f' → copyLoop env f i t w = some r →
      copyLoop env f' i t w = some r := by
  intro f
  induction f with
  | zero => intro f' i t w r _ h; simp [copyLoop] at h
  | succ f ih =>
    intro f' i t w r hle h
    obtain ⟨f'', rfl⟩ : ∃ f'', f' = f'' + 1 := ⟨f' - 1, by omega⟩
    simp only [copyLoop] at h ⊢
    by_cases h0 : env.avail i = 0
    · rw [if_pos h0] at h ⊢
      by_cases hc : env.conn i = true
      · rw [if_pos hc] at h ⊢
        exact ih f'' (i + 1) t w r (by omega) h
      · rw [if_neg hc] at h ⊢; exact h
    · rw [if_neg h0] at h ⊢
      by_cases hr : env.readb i (min (env.avail i) BUF) ≤ 0
      · rw [if_pos hr] at h ⊢; exact h
      · rw [if_neg hr] at h ⊢
        by_cases hw : env.write i (env.readb i (min (env.avail i) BUF)).toNat ≠
            (env.readb i (min (env.avail i) BUF)).toNat
        · rw [if_pos hw] at h ⊢; exact h
        · rw [if_neg hw] at h ⊢
          exact ih f'' (i + 1) (t + (env.readb i (min (env.avail i) BUF)).toNat)
            (w + 1) r (by omega) h

/-- The `totalWritten` counter never decreases across the loop. -/
theorem copyLoop_total_le (env : Env) :
    ∀ f i t w r, copyLoop env f i t w = some r → t ≤ r.total := by
  intro f
  induction f with
  | zero => intro i t w r h; simp [copyLoop] at h
  | succ f ih =>
    intro i t w r h
    simp only [copyLoop] at h
    by_cases h0 : env.avail i = 0
    · rw [if_pos h0] at h
      by_cases hc : env.conn i = true
      · rw [if_pos hc] at h; exact ih (i + 1) t w r h
      · rw [if_neg hc] at h
        injection h with h; subst h; exact le_rfl
    · rw [if_neg h0] at h
      by_cases hr : env.readb i (min (env.avail i) BUF) ≤ 0
      · rw [if_pos hr] at h
        injection h with h; subst h; exact le_rfl
      · rw [if_neg hr] at h
        by_cases hw : env.write i (env.readb i (min (env.avail i) BUF)).toNat ≠
            (env.readb i (min (env.avail i) BUF)).toNat
        · rw [if_pos hw] at h
          injection h with h; subst h; exact le_rfl
        · rw [if_neg hw] at h
          exact le_trans (Nat.le_add_right _ _) (ih (i + 1) _ (w + 1) r h)

/-- A loop that exits normally (`closed`) accumulates exactly the bytes
the stream produced from its starting poll index. -/
theorem copyLoop_closed_produced (env : Env) :
    ∀ f i t w T W, copyLoop env f i t w = some (.closed T W) →
      ∃ s, streamProduced env f i = some s ∧ T = t + s := by
  intro f
  induction f with
  | zero => intro i t w T W h; simp [copyLoop] at h
  | succ f ih =>
    intro i t w T W h
    simp only [copyLoop] at h
    simp only [streamProduced]
    by_cases h0 : env.avail i = 0
    · rw [if_pos h0] at h; rw [if_pos h0]
      by_cases hc : env.conn i = true
      · rw [if_pos hc] at h; rw [if_pos hc]
        exact ih (i + 1) t w T W h
      · rw [if_neg hc] at h; rw [if_neg hc]
        injection h with h
        injection h with h1 h2
        exact ⟨0, rfl, by omega⟩
    · rw [if_neg h0] at h; rw [if_neg h0]
      by_cases hr : env.readb i (min (env.avail i) BUF) ≤ 0
      · rw [if_pos hr] at h; rw [if_pos hr]
        injection h with h
        injection h with h1 h2
        exact ⟨0, rfl, by omega⟩
      · rw [if_neg hr] at h; rw [if_neg hr]
        by_cases hw : env.write i (env.readb i (min (env.avail i) BUF)).toNat ≠
            (env.readb i (min (env.avail i) BUF)).toNat
        · rw [if_pos hw] at h
          exact absurd h (by simp)
        · rw [if_neg hw] at h
          obtain ⟨s, hs, hT⟩ := ih (i + 1) _ (w + 1) T W h
          refine ⟨s + (env.readb i (min (env.avail i) BUF)).toNat, ?_, by omega⟩
          rw [hs]; rfl

/-- The copy loop depends only on the observable stream behaviour: two
environments whose stream responses agree pointwise drive the loop to the
same exit. -/
theorem copyLoop_congr (e₁ e₂ : Env)
    (ha : ∀ i, e₁.avail i = e₂.avail i) (hc : ∀ i, e₁.conn i = e₂.conn i)
    (hr : ∀ i n, e₁.readb i n = e₂.readb i n)
    (hw : ∀ i n, e₁.write i n = e₂.write i n) :
    ∀ f i t w, copyLoop e₁ f i t w = copyLoop e₂ f i t w := by
  intro f
  induction f with
  | zero => intro i t w; simp [copyLoop]
  | succ f ih =>
    intro i t w
    simp only [copyLoop, ha, hc, hr, hw]
    by_cases h0 : e₂.avail i = 0
    · rw [if_pos h0, if_pos h0]
      by_cases hcc : e₂.conn i = true
      · rw [if_pos hcc, if_pos hcc]; exact ih (i + 1) t w
      · rw [if_neg hcc, if_neg hcc]
    · rw [if_neg h0, if_neg h0]
      by_cases hrr : e₂.readb i (min (e₂.avail i) BUF) ≤ 0
      · rw [if_pos hrr, if_pos hrr]
      · rw [if_neg hrr, if_neg hrr]
        by_cases hww : e₂.write i (e₂.readb i (min (e₂.avail i) BUF)).toNat ≠
            (e₂.readb i (min (e₂.avail i) BUF)).toNat
        · rw [if_pos hww, if_pos hww]
        · rw [if_neg hww, if_neg hww]; exact ih (i + 1) _ (w + 1)

/-- The whole transfer core depends only on the observable environment:
same `Update.begin` size argument, same partition responses and pointwise
equal stream responses give identical runs. -/
theorem performHttpUpdate_congr (e₁ e₂ : Env)
    (hsize : (if 0 < e₁.contentLength then some e₁.contentLength.toNat else none) =
      (if 0 < e₂.contentLength then some e₂.contentLength.toNat else none))
    (hB : e₁.beginOk = e₂.beginOk)
    (ha : ∀ i, e₁.avail i = e₂.avail i) (hc : ∀ i, e₁.conn i = e₂.conn i)
    (hr : ∀ i n, e₁.readb i n = e₂.readb i n)
    (hw : ∀ i n, e₁.write i n = e₂.write i n)
    (hE : e₁.endOk = e₂.endOk) (hF : e₁.isFinished = e₂.isFinished) :
    ∀ fuel, performHttpUpdate e₁ fuel = performHttpUpdate e₂ fuel := by
  intro fuel
  simp only [performHttpUpdate, hsize, hB, hE, hF,
    copyLoop_congr e₁ e₂ ha hc hr hw]

/-- If the stream reports "disconnected, nothing available" at poll
`i + k`, the loop terminates within `k + 1` iterations when started at
poll `i`. -/
theorem copyLoop_term (env : Env) :
    ∀ k i t w, env.avail (i + k) = 0 → env.conn (i + k) = false →
      ∃ r, copyLoop env (k + 1) i t w = some r := by
  intro k
  induction k with
  | zero =>
    intro i t w ha hc
    rw [Nat.add_zero] at ha hc
    refine ⟨.closed t w, ?_⟩
    simp [copyLoop, ha, hc]
  | succ k ih =>
    intro i t w ha hc
    have ha' : env.avail (i + 1 + k) = 0 := by
      have : i + 1 + k = i + (k + 1) := by omega
      rw [this]; exact ha
    have hc' : env.conn (i + 1 + k) = false := by
      have : i + 1 + k = i + (k + 1) := by omega
      rw [this]; exact hc
    simp only [copyLoop]
    by_cases h0 : env.avail i = 0
    · rw [if_pos h0]
      by_cases hcc : env.conn i = true
      · rw [if_pos hcc]; exact ih (i + 1) t w ha' hc'
      · rw [if_neg hcc]; exact ⟨.closed t w, rfl⟩
    · rw [if_neg h0]
      by_cases hrr : env.readb i (min (env.avail i) BUF) ≤ 0
      · rw [if_pos hrr]; exact ⟨.closed t w, rfl⟩
      · rw [if_neg hrr]
        by_cases hww : env.write i (env.readb i (min (env.avail i) BUF)).toNat ≠
            (env.readb i (min (env.avail i) BUF)).toNat
        · rw [if_pos hww]; exact ⟨.writeErr t (w + 1), rfl⟩
        · rw [if_neg hww]; exact ih (i + 1) _ (w + 1) ha' hc'

/-- A stream that never offers a byte up to its closing poll `N` drives
the loop to a normal exit with nothing written and no write calls. -/
theorem copyLoop_empty (env : Env) (N : Nat) (hcn : env.conn N = false) :
    ∀ k i t w, i + k = N → (∀ j, j ≤ N → env.avail j = 0) →
      copyLoop env (k + 1) i t w = some (.closed t w) := by
  intro k
  induction k with
  | zero =>
    intro i t w hik hav
    have hi : i = N := by omega
    subst hi
    simp [copyLoop, hav i le_rfl, hcn]
  | succ k ih =>
    intro i t w hik hav
    simp only [copyLoop]
    rw [if_pos (hav i (by omega))]
    by_cases hcc : env.conn i = true
    · rw [if_pos hcc]; exact ih (i + 1) t w (by omega) hav
    · rw [if_neg hcc]

/-- Inversion principle for terminated runs: every `some` result of the
transfer core arises from exactly one of the four `return` sites of the
source (begin failed, write error, finalize failed / incomplete, success),
with the corresponding observable record. -/
theorem performHttpUpdate_inv (env : Env) (fuel : Nat) (res : RunResult)
    (h : performHttpUpdate env fuel = some res) :
    (env.beginOk = false ∧
      res = ⟨.failed .stagingBeginFailed, 0, false, false, sizeArgOf env, 0⟩) ∨
    (env.beginOk = true ∧ ∃ t w, copyLoop env fuel 0 0 0 = some (.writeErr t w) ∧
      res = ⟨.failed .writeError, 1, false, false, sizeArgOf env, w⟩) ∨
    (env.beginOk = true ∧ ∃ t w, copyLoop env fuel 0 0 0 = some (.closed t w) ∧
      ((env.endOk = false ∧
          res = ⟨.failed .finalizeFailed, 0, false, true, sizeArgOf env, w⟩) ∨
       (env.endOk = true ∧ env.isFinished = false ∧
          res = ⟨.failed .incompleteTransfer, 0, false, true, sizeArgOf env, w⟩) ∨
       (env.endOk = true ∧ env.isFinished = true ∧
          res = ⟨.succeeded t, 0, true, true, sizeArgOf env, w⟩))) := by
  by_cases hb : env.beginOk = true
  · rcases hcl : copyLoop env fuel 0 0 0 with _ | r
    · simp [performHttpUpdate, hb, hcl] at h
    · cases r with
      | writeErr t w =>
        refine Or.inr (Or.inl ⟨hb, t, w, rfl, ?_⟩)
        have h2 : performHttpUpdate env fuel =
            some ⟨.failed .writeError, 1, false, false, sizeArgOf env, w⟩ := by
          simp [performHttpUpdate, hb, hcl, sizeArgOf]
        rw [h2] at h; exact (Option.some.inj h).symm
      | closed t w =>
        refine Or.inr (Or.inr ⟨hb, t, w, rfl, ?_⟩)
        by_cases hE : env.endOk = true
        · by_cases hF : env.isFinished = true
          · refine Or.inr (Or.inr ⟨hE, hF, ?_⟩)
            have h2 : performHttpUpdate env fuel =
                some ⟨.succeeded t, 0, true, true, sizeArgOf env, w⟩ := by
              simp [performHttpUpdate, hb, hcl, hE, hF, sizeArgOf]
            rw [h2] at h; exact (Option.some.inj h).symm
          · have hF' : env.isFinished = false := by simpa using hF
            refine Or.inr (Or.inl ⟨hE, hF', ?_⟩)
            have h2 : performHttpUpdate env fuel =
                some ⟨.failed .incompleteTransfer, 0, false, true, sizeArgOf env, w⟩ := by
              simp [performHttpUpdate, hb, hcl, hE, hF', sizeArgOf]
            rw [h2] at h; exact (Option.some.inj h).symm
        · have hE' : env.endOk = false := by simpa using hE
          refine Or.inl ⟨hE', ?_⟩
          have h2 : performHttpUpdate env fuel =
              some ⟨.failed .finalizeFailed, 0, false, true, sizeArgOf env, w⟩ := by
            simp [performHttpUpdate, hb, hcl, hE', sizeArgOf]
          rw [h2] at h; exact (Option.some.inj h).symm
  · have hb' : env.beginOk = false := by simpa using hb
    refine Or.inl ⟨hb', ?_⟩
    have h2 : performHttpUpdate env fuel =
        some ⟨.failed .stagingBeginFailed, 0, false, false, sizeArgOf env, 0⟩ := by
      simp [performHttpUpdate, hb', sizeArgOf]
    rw [h2] at h; exact (Option.some.inj h).symm

/-! ## Claims -/

/-- Claim C1, counterexample: a concrete run that fails after staging has
begun (`beginOk = true`, `Update.end()` fails) with **zero**
`Update.abort()` calls: the result record's second field, `abortCount`,
is `0`, refuting "Abort is invoked on the staging partition before the
controller returns" for finalize failures. -/
theorem C1_cex :
    envFinalizeFail.beginOk = true ∧
    performHttpUpdate envFinalizeFail 1 = some resFinalizeFail ∧
    resFinalizeFail.outcome = .failed .finalizeFailed ∧
    resFinalizeFail.abortCount = 0 := by decide

/-- Claim C1 (amended): `Update.abort()` is invoked (exactly once) only on
write-error failures; finalize-failed, incomplete-transfer and
staging-begin failures return with no `Update.abort()` call by the
controller. -/
theorem C1_abort_only_on_write_error (env : Env) (fuel : Nat) (res : RunResult)
    (h : performHttpUpdate env fuel = some res) :
    (res.outcome = .failed .writeError → res.abortCount = 1) ∧
    (res.outcome = .failed .finalizeFailed → res.abortCount = 0) ∧
    (res.outcome = .failed .incompleteTransfer → res.abortCount = 0) ∧
    (res.outcome = .failed .stagingBeginFailed → res.abortCount = 0) := by
  rcases performHttpUpdate_inv env fuel res h with ⟨hb, rfl⟩ |
    ⟨hb, t, w, hcl, rfl⟩ | ⟨hb, t, w, hcl, hres⟩
  · simp
  · simp
  · rcases hres with ⟨hE, rfl⟩ | ⟨hE, hF, rfl⟩ | ⟨hE, hF, rfl⟩ <;> simp

/-- Claim C1 witness: the amended theorem applied to the finalize-failure
run. -/
theorem C1_witness : resFinalizeFail.abortCount = 0 :=
  (C1_abort_only_on_write_error envFinalizeFail 1 resFinalizeFail
    (by decide)).2.1 (by decide)

/-- Claim C2, counterexample: a successful concrete run whose result has
`restarted = true` (third field): `ESP.restart()` is reached inside
`performHttpUpdate` itself (source line 166), refuting "performs no
device restart; the restart is carried out by the caller". -/
theorem C2_cex :
    performHttpUpdate envOneChunk 2 = some resSuccess100 ∧
    resSuccess100.outcome = .succeeded 100 ∧
    resSuccess100.restarted = true := by decide

/-- Claim C2 (amended): on the success path the transfer routine reports
`Succeeded(bytesWritten)` and performs the device restart itself: a run
restarts the device exactly when it succeeds, and no failure path
restarts. -/
theorem C2_restart_inside (env : Env) (fuel : Nat) (res : RunResult)
    (h : performHttpUpdate env fuel = some res) :
    (res.restarted = true ↔ ∃ n, res.outcome = .succeeded n) := by
  rcases performHttpUpdate_inv env fuel res h with ⟨hb, rfl⟩ |
    ⟨hb, t, w, hcl, rfl⟩ | ⟨hb, t, w, hcl, hres⟩
  · simp
  · simp
  · rcases hres with ⟨hE, rfl⟩ | ⟨hE, hF, rfl⟩ | ⟨hE, hF, rfl⟩ <;> simp

/-- Claim C2 witness: the amended theorem applied to the successful
one-chunk run. -/
theorem C2_witness : ∃ n, resSuccess100.outcome = .succeeded n :=
  (C2_restart_inside envOneChunk 2 resSuccess100 (by decide)).1 (by decide)

/-- Claim C3: a run that reaches the finalize step (staging begun and the
copy loop exited normally with `totalWritten = t`) invoked `Update.end()`,
succeeds exactly when `Update.end()` and `Update.isFinished()` both pass
(and then reports `Succeeded(t)`), fails with `finalizeFailed` when
`Update.end()` fails, and fails with `incompleteTransfer` when
`Update.end()` passes but `Update.isFinished()` does not. -/
theorem C3_finalize_two_checks (env : Env) (fuel : Nat) (res : RunResult)
    (t w : Nat) (hb : env.beginOk = true)
    (h : performHttpUpdate env fuel = some res)
    (hl : copyLoop env fuel 0 0 0 = some (.closed t w)) :
    res.finalized = true ∧
    ((∃ n, res.outcome = .succeeded n) ↔
      env.endOk = true ∧ env.isFinished = true) ∧
    (env.endOk = true → env.isFinished = true → res.outcome = .succeeded t) ∧
    (env.endOk = false → res.outcome = .failed .finalizeFailed) ∧
    (env.endOk = true → env.isFinished = false →
      res.outcome = .failed .incompleteTransfer) := by
  rcases performHttpUpdate_inv env fuel res h with ⟨hb2, rfl⟩ |
    ⟨hb2, t2, w2, hcl, rfl⟩ | ⟨hb2, t2, w2, hcl, hres⟩
  · rw [hb] at hb2; exact absurd hb2 (by simp)
  · rw [hcl] at hl; exact absurd hl (by simp)
  · rw [hcl] at hl
    have hl2 := Option.some.inj hl
    injection hl2 with h1 h2
    subst h1; subst h2
    rcases hres with ⟨hE, rfl⟩ | ⟨hE, hF, rfl⟩ | ⟨hE, hF, rfl⟩
    · simp [hE]
    · simp [hE, hF]
    · simp [hE, hF]

/-- Claim C3 witness: the theorem applied to the successful one-chunk
run, whose loop exits normally with 100 bytes. -/
theorem C3_witness : resSuccess100.finalized = true :=
  (C3_finalize_two_checks envOneChunk 2 resSuccess100 100 1 (by decide)
    (by decide) (by decide)).1

/-- Claim C4: byte accounting.  (1) On a `Succeeded(n)` outcome, `n`
equals the total number of bytes the stream actually produced across the
session (the spec-side `streamProduced` count).  (2) `totalWritten`
starts at 0 (the run enters the loop as `copyLoop env fuel 0 0 0`) and is
monotonically non-decreasing: every loop exit carries a total at least
the entry total.  On the success path every counted chunk was a write
acknowledged in full, so the counter also equals the sum of successful
write acknowledgements. -/
theorem C4_bytes_accounting (env : Env) (fuel : Nat) (res : RunResult)
    (h : performHttpUpdate env fuel = some res) :
    (∀ n, res.outcome = .succeeded n → streamProduced env fuel 0 = some n) ∧
    (∀ f i t w r, copyLoop env f i t w = some r → t ≤ r.total) := by
  constructor
  · intro n hn
    rcases performHttpUpdate_inv env fuel res h with ⟨hb, rfl⟩ |
      ⟨hb, t, w, hcl, rfl⟩ | ⟨hb, t, w, hcl, hres⟩
    · simp at hn
    · simp at hn
    · rcases hres with ⟨hE, rfl⟩ | ⟨hE, hF, rfl⟩ | ⟨hE, hF, rfl⟩
      · simp at hn
      · simp at hn
      · have ht : t = n := by simpa using hn
        subst ht
        obtain ⟨s, hs, hT⟩ := copyLoop_closed_produced env fuel 0 0 0 t w hcl
        have hst : s = t := by omega
        rw [hs, hst]
  · intro f i t w r hr
    exact copyLoop_total_le env f i t w r hr

/-- Claim C4 witness: the successful one-chunk run reports 100 bytes, and
the stream produced exactly 100 bytes. -/
theorem C4_witness : streamProduced envOneChunk 2 0 = some 100 :=
  (C4_bytes_accounting envOneChunk 2 resSuccess100 (by decide)).1 100 (by decide)

/-- Claim C5: a session in which some `Update.write` acknowledges fewer
bytes than requested (the copy loop exits `writeErr`) ends
`Failed(writeError)` with exactly one `Update.abort()` call, and the
session's total number of write calls is the loop's count at the failure
(the short write is the last write: none follow it).  Conversely, a short
acknowledgement at any reached poll exits the loop at once, performing
exactly one more write (the failing one). -/
theorem C5_short_write_aborts (env : Env) (fuel : Nat) (res : RunResult)
    (t w : Nat) (hb : env.beginOk = true)
    (h : performHttpUpdate env fuel = some res)
    (hl : copyLoop env fuel 0 0 0 = some (.writeErr t w)) :
    res.outcome = .failed .writeError ∧ res.abortCount = 1 ∧ res.writes = w ∧
    (∀ i f tt ww, env.avail i ≠ 0 →
      ¬ env.readb i (min (env.avail i) BUF) ≤ 0 →
      env.write i (env.readb i (min (env.avail i) BUF)).toNat ≠
        (env.readb i (min (env.avail i) BUF)).toNat →
      copyLoop env (f + 1) i tt ww = some (.writeErr tt (ww + 1))) := by
  rcases performHttpUpdate_inv env fuel res h with ⟨hb2, rfl⟩ |
    ⟨hb2, t2, w2, hcl, rfl⟩ | ⟨hb2, t2, w2, hcl, hres⟩
  · rw [hb] at hb2; exact absurd hb2 (by simp)
  · rw [hcl] at hl
    have hl2 := Option.some.inj hl
    injection hl2 with h1 h2
    subst h1; subst h2
    refine ⟨rfl, rfl, rfl, ?_⟩
    intro i f tt ww h1 h2 h3
    simp only [copyLoop]
    rw [if_neg h1, if_neg h2, if_pos h3]
  · rw [hcl] at hl; exact absurd hl (by simp)

/-- Claim C5 witness: the theorem applied to the short-write run. -/
theorem C5_witness : resShortWrite.outcome = .failed .writeError :=
  (C5_short_write_aborts envShortWrite 2 resShortWrite 0 1 (by decide)
    (by decide) (by decide)).1

/-- Claim C6: a stream that yields 0 bytes in total before closing (no
bytes available at any poll up to the closing poll `N`) drives the copy
loop to an immediate normal exit with no `Update.write` calls, the
finalize step still runs, and — the partition reporting the empty image
"not complete", as the spec states an empty image is never valid — the
outcome is never `Succeeded`, and is exactly
`Failed(incompleteTransfer)` when `Update.end()` nominally succeeds. -/
theorem C6_zero_byte_stream (env : Env) (N fuel : Nat) (res : RunResult)
    (hav : ∀ i, i ≤ N → env.avail i = 0) (hcn : env.conn N = false)
    (hb : env.beginOk = true) (hfuel : N < fuel)
    (h : performHttpUpdate env fuel = some res) :
    res.writes = 0 ∧ res.finalized = true ∧
    (env.isFinished = false → ∀ n, res.outcome ≠ .succeeded n) ∧
    (env.isFinished = false → env.endOk = true →
      res.outcome = .failed .incompleteTransfer) := by
  have hstep : copyLoop env (N + 1) 0 0 0 = some (.closed 0 0) :=
    copyLoop_empty env N hcn N 0 0 0 (by omega) hav
  have hcl : copyLoop env fuel 0 0 0 = some (.closed 0 0) :=
    copyLoop_fuel_mono env (N + 1) fuel 0 0 0 (.closed 0 0) (by omega) hstep
  rcases performHttpUpdate_inv env fuel res h with ⟨hb2, rfl⟩ |
    ⟨hb2, t2, w2, hcl2, rfl⟩ | ⟨hb2, t2, w2, hcl2, hres⟩
  · rw [hb] at hb2; exact absurd hb2 (by simp)
  · rw [hcl] at hcl2; exact absurd hcl2 (by simp)
  · rw [hcl] at hcl2
    have hl2 := (Option.some.inj hcl2).symm
    injection hl2 with h1 h2
    subst h1; subst h2
    rcases hres with ⟨hE, rfl⟩ | ⟨hE, hF, rfl⟩ | ⟨hE, hF, rfl⟩
    · simp [hE]
    · simp [hE, hF]
    · simp [hE, hF]

/-- Claim C6 witness: the theorem applied to the already-closed empty
stream whose partition finalizes but reports "not complete". -/
theorem C6_witness : resEmptyIncomplete.outcome = .failed .incompleteTransfer :=
  (C6_zero_byte_stream envEmptyIncomplete 0 1 resEmptyIncomplete
    (fun i _ => rfl) rfl rfl (by omega) (by decide)).2.2.2 rfl rfl

/-- Claim C7: a declared length that is 0, negative, or malformed
(`http.getSize()` reports any non-positive value) makes the run behave
exactly as if the length were undeclared (`-1`): the whole run is equal
to the run with `contentLength = -1`, `Update.begin` is called in the
unknown-size mode (`beginMode = none`), and no empty-file success
shortcut exists — success still requires the finalize checks to pass. -/
theorem C7_nonpositive_length_unknown (env : Env) (fuel : Nat)
    (hL : env.contentLength ≤ 0) :
    performHttpUpdate env fuel =
      performHttpUpdate { env with contentLength := -1 } fuel ∧
    (∀ res, performHttpUpdate env fuel = some res →
      res.beginMode = none ∧
      (∀ n, res.outcome = .succeeded n →
        env.endOk = true ∧ env.isFinished = true)) := by
  have hnone : sizeArgOf env = none := by
    rw [sizeArgOf, if_neg (by omega)]
  constructor
  · refine performHttpUpdate_congr env { env with contentLength := -1 } ?_ rfl
      (fun _ => rfl) (fun _ => rfl)
      (fun _ _ => rfl) (fun _ _ => rfl) rfl rfl fuel
    rw [if_neg (by omega : ¬ (0 : Int) < env.contentLength)]
    rfl
  · intro res h
    rcases performHttpUpdate_inv env fuel res h with ⟨hb2, rfl⟩ |
      ⟨hb2, t2, w2, hcl, rfl⟩ | ⟨hb2, t2, w2, hcl, hres⟩
    · exact ⟨hnone, by simp⟩
    · exact ⟨hnone, by simp⟩
    · rcases hres with ⟨hE, rfl⟩ | ⟨hE, hF, rfl⟩ | ⟨hE, hF, rfl⟩
      · exact ⟨hnone, by simp⟩
      · exact ⟨hnone, by simp⟩
      · exact ⟨hnone, fun n _ => ⟨hE, hF⟩⟩

/-- Claim C7 witness: the theorem applied to an environment whose
declared length is `-1`'s sibling case `-1 ≤ 0` (unknown). -/
theorem C7_witness : performHttpUpdate envEmptyIncomplete 1 =
    performHttpUpdate { envEmptyIncomplete with contentLength := -1 } 1 :=
  (C7_nonpositive_length_unknown envEmptyIncomplete 1 (by decide)).1

/-- Claim C8: once the stream reports itself closed (disconnected with no
bytes available, at some poll `N`), the run reaches a terminal result —
with fuel `N + 1`, independent of the declared length (`env` is
arbitrary, in particular its `contentLength`). -/
theorem C8_terminates_once_closed (env : Env) (N : Nat)
    (hav : env.avail N = 0) (hcn : env.conn N = false) :
    ∃ res, performHttpUpdate env (N + 1) = some res := by
  by_cases hb : env.beginOk = true
  · obtain ⟨r, hr⟩ := copyLoop_term env N 0 0 0 (by simpa using hav)
      (by simpa using hcn)
    cases r with
    | closed t w =>
      by_cases hE : env.endOk = true
      · by_cases hF : env.isFinished = true
        · exact ⟨⟨.succeeded t, 0, true, true, sizeArgOf env, w⟩,
            by simp [performHttpUpdate, hb, hr, hE, hF, sizeArgOf]⟩
        · have hF' : env.isFinished = false := by simpa using hF
          exact ⟨⟨.failed .incompleteTransfer, 0, false, true, sizeArgOf env, w⟩,
            by simp [performHttpUpdate, hb, hr, hE, hF', sizeArgOf]⟩
      · have hE' : env.endOk = false := by simpa using hE
        exact ⟨⟨.failed .finalizeFailed, 0, false, true, sizeArgOf env, w⟩,
          by simp [performHttpUpdate, hb, hr, hE', sizeArgOf]⟩
    | writeErr t w =>
      exact ⟨⟨.failed .writeError, 1, false, false, sizeArgOf env, w⟩,
        by simp [performHttpUpdate, hb, hr, sizeArgOf]⟩
  · have hb' : env.beginOk = false := by simpa using hb
    exact ⟨⟨.failed .stagingBeginFailed, 0, false, false, sizeArgOf env, 0⟩,
      by simp [performHttpUpdate, hb', sizeArgOf]⟩

/-- Claim C8 witness: the already-closed stream terminates with fuel 1. -/
theorem C8_witness : ∃ res, performHttpUpdate envEmptySuccess 1 = some res :=
  C8_terminates_once_closed envEmptySuccess 0 rfl rfl

/-- Claim C9: two sequential, independent invocations given equivalent
streams (pointwise equal poll responses), equal declared lengths and an
identically responding staging partition produce identical runs — in
particular equal outcomes and equal `bytesWritten`.  The transfer core
keeps no hidden state across invocations. -/
theorem C9_sequential_runs_agree (e₁ e₂ : Env) (fuel : Nat)
    (hL : e₁.contentLength = e₂.contentLength)
    (hB : e₁.beginOk = e₂.beginOk)
    (ha : ∀ i, e₁.avail i = e₂.avail i) (hc : ∀ i, e₁.conn i = e₂.conn i)
    (hr : ∀ i n, e₁.readb i n = e₂.readb i n)
    (hw : ∀ i n, e₁.write i n = e₂.write i n)
    (hE : e₁.endOk = e₂.endOk) (hF : e₁.isFinished = e₂.isFinished) :
    performHttpUpdate e₁ fuel = performHttpUpdate e₂ fuel ∧
    (∀ r₁ r₂, performHttpUpdate e₁ fuel = some r₁ →
      performHttpUpdate e₂ fuel = some r₂ → r₁ = r₂) := by
  have hmain := performHttpUpdate_congr e₁ e₂ (by rw [hL]) hB ha hc hr hw hE hF fuel
  refine ⟨hmain, fun r₁ r₂ h₁ h₂ => ?_⟩
  rw [hmain, h₂] at h₁
  exact (Option.some.inj h₁).symm

/-- Claim C9 witness: two syntactically different but observationally
equal environments produce identical runs. -/
theorem C9_witness :
    performHttpUpdate envOneChunk 2 = performHttpUpdate envOneChunkAlt 2 :=
  (C9_sequential_runs_agree envOneChunk envOneChunkAlt 2 rfl rfl
    (fun _ => rfl) (fun _ => rfl)
    (fun i n => by simp [envOneChunk, envOneChunkAlt])
    (fun _ _ => rfl) rfl rfl).1

/-- Claim C10: a read that returns a non-positive count at a poll where
the stream reported bytes available and still connected makes the copy
loop exit normally at once (`closed`, no extra write, same totals), and a
run whose loop exits normally proceeds to the finalize step with no
`Update.abort()` call and never reports a write error. -/
theorem C10_read_eof_normal_exit (env : Env) (j : Nat)
    (hav : env.avail j ≠ 0) (_hcn : env.conn j = true)
    (hrd : env.readb j (min (env.avail j) BUF) ≤ 0) :
    (∀ f t w, copyLoop env (f + 1) j t w = some (.closed t w)) ∧
    (∀ fuel res t w, env.beginOk = true →
      performHttpUpdate env fuel = some res →
      copyLoop env fuel 0 0 0 = some (.closed t w) →
      res.abortCount = 0 ∧ res.outcome ≠ .failed .writeError ∧
      res.finalized = true) := by
  constructor
  · intro f t w
    simp only [copyLoop]
    rw [if_neg hav, if_pos hrd]
  · intro fuel res t w hb h hl
    rcases performHttpUpdate_inv env fuel res h with ⟨hb2, rfl⟩ |
      ⟨hb2, t2, w2, hcl, rfl⟩ | ⟨hb2, t2, w2, hcl, hres⟩
    · rw [hb] at hb2; exact absurd hb2 (by simp)
    · rw [hcl] at hl; exact absurd hl (by simp)
    · rcases hres with ⟨hE, rfl⟩ | ⟨hE, hF, rfl⟩ | ⟨hE, hF, rfl⟩ <;> simp

/-- Claim C10 witness: the first conjunct applied to the stream that
claims 10 bytes available but reads 0. -/
theorem C10_witness : copyLoop envReadEof 1 0 5 7 = some (.closed 5 7) :=
  (C10_read_eof_normal_exit envReadEof 0 (by decide) rfl (by decide)).1 0 5 7
